import Mathlib

/-!
Shallow embedding of `generator.py` from the swedish-holiday-calendar-generator
repository.  Dates are modelled as proleptic Gregorian ordinals (the integer
returned by Python's `date.toordinal`), Easter is the Western (Gregorian)
computation of `dateutil.easter.easter` (method 3), and the iCalendar event
objects are modelled as records holding exactly the properties the script adds.
The only impure ingredient of the script is `uuid.uuid1()`; it is modelled by an
explicit supply `uids : Nat → Nat` handing the k-th created event its unique id.
-/

namespace SwedishHolidays

/-- Enum `Work` from generator.py: how work is affected by a holiday. -/
inductive Work where
  | FREE
  | DEFACTO
  | DEPENDS
deriving DecidableEq

/-- Leap-year test of the proleptic Gregorian calendar (Python `calendar.isleap`,
used by `datetime.date`). -/
def isLeap (y : Nat) : Bool := y % 4 == 0 && (y % 100 != 0 || y % 400 == 0)

/-- Number of days in all years strictly before year `y` (Python
`datetime._days_before_year`). -/
def daysBeforeYear (y : Nat) : Nat :=
  365 * (y - 1) + (y - 1) / 4 - (y - 1) / 100 + (y - 1) / 400

/-- Cumulative day counts before each month in a non-leap year. -/
def daysBeforeMonthTable : List Nat :=
  [0, 31, 59, 90, 120, 151, 181, 212, 243, 273, 304, 334]

/-- Number of days in year `y` strictly before month `m` (Python
`datetime._days_before_month`). -/
def daysBeforeMonth (y m : Nat) : Nat :=
  daysBeforeMonthTable.getD (m - 1) 0 + (if 2 < m ∧ isLeap y then 1 else 0)

/-- Proleptic Gregorian ordinal of the date `y-m-d`: day 1 is 0001-01-01
(Python `date.toordinal`). -/
def toOrdinal (y m d : Nat) : Int :=
  ((daysBeforeYear y + daysBeforeMonth y m + d : Nat) : Int)

/-- Day of week of an ordinal, Monday = 0 … Sunday = 6 (Python `date.weekday`). -/
def weekday (o : Int) : Int := (o + 6).emod 7

/-- Month and day of Western Easter Sunday of the given year, exactly the
arithmetic of `dateutil.easter.easter(year)` with the default method 3
(Gregorian); Python's floor division `//` and floor modulus `%` are `Int.fdiv`
and `Int.emod` (the divisors are all positive).  The method-3 constant `e` of
dateutil is 0 and is dropped. -/
def easterMD (year : Nat) : Nat × Nat :=
  let y : Int := (year : Int)
  let g := y.emod 19
  let c := y.fdiv 100
  let h := (c - c.fdiv 4 - (8 * c + 13).fdiv 25 + 19 * g + 15).emod 30
  let i := h - (h.fdiv 28) * (1 - (h.fdiv 28) * ((29 : Int).fdiv (h + 1)) * ((21 - g).fdiv 11))
  let j := (y + y.fdiv 4 + i + 2 - c + c.fdiv 4).emod 7
  let p := i - j
  let d := 1 + (p + 27 + (p + 6).fdiv 40).emod 31
  let m := 3 + (p + 26).fdiv 30
  (m.toNat, d.toNat)

/-- Ordinal of Easter Sunday of the given year. -/
def easterOrdinal (year : Nat) : Int :=
  toOrdinal year (easterMD year).1 (easterMD year).2

/-- An iCalendar RRULE value as the script builds it with `vRecur`:
`FREQ` always present, optionally `BYDAY`, `BYMONTHDAY` and `BYMONTH`
(the latter two as lists; the script passes a scalar or a tuple). -/
structure VRecur where
  freq : String
  byday : Option String
  bymonthday : List Nat
  bymonth : List Nat
deriving DecidableEq

/-- The rule `FREQ=YEARLY` that `FixedHoliday.__init__` attaches. -/
def yearlyRecur : VRecur :=
  { freq := "YEARLY", byday := none, bymonthday := [], bymonth := [] }

/-- The properties of a holiday event apart from its `uid`: everything
`Holiday.__init__` (and subclasses) adds besides the uuid. -/
structure HolidaySpec where
  transp : String
  dtstart : Int
  summary : String
  categories : Option String
  description : Option String
  rrule : Option VRecur
deriving DecidableEq

/-- A complete holiday event, as `Holiday.__init__` creates it: the spec
together with the unique id drawn from the uuid supply. -/
structure Holiday where
  uid : Nat
  transp : String
  dtstart : Int
  summary : String
  categories : Option String
  description : Option String
  rrule : Option VRecur
deriving DecidableEq

/-- Category text attached when `work == Work.DEPENDS`. -/
def dependsCategory : String := "Ledighet enligt avtal"

/-- Description text attached when `work == Work.DEPENDS`. -/
def dependsDescription : String :=
  "Denna dag har inte lagstadgad ställning som arbetsfri dag. Många arbetsplatser har ändå förkortad arbetstid enligt kollektivavtal eller lokala avtal."

/-- Description text attached when `work == Work.DEFACTO`. -/
def defactoDescription : String :=
  "Denna dag räknas som söndag enligt 3 a § i Semesterlagen och är därmed arbetsfri."

/-- `Holiday.__init__(dtstart, summary, work)` without the uuid: adds
TRANSPARENT transparency, the start date and summary, and, depending on
`work`, the category tag and/or descriptive note. -/
def holiday (dtstart : Int) (summary : String) (work : Work) : HolidaySpec :=
  { transp := "TRANSPARENT"
    dtstart := dtstart
    summary := summary
    categories := if work = Work.DEPENDS then some dependsCategory else none
    description :=
      if work = Work.DEPENDS then some dependsDescription
      else if work = Work.DEFACTO then some defactoDescription
      else none
    rrule := none }

/-- `FixedHoliday.__init__`: a holiday with the extra rule `FREQ=YEARLY`. -/
def fixedHoliday (dtstart : Int) (summary : String) (work : Work) : HolidaySpec :=
  { holiday dtstart summary work with rrule := some yearlyRecur }

/-- `Calendar.add_easter(year)`: the eight events for holidays that depend on
when Easter falls the given year, in the order the script appends them.
`timedelta(weeks=w, days=d)` is `w * 7 + d` days. -/
def addEaster (year : Nat) : List HolidaySpec :=
  let easter := easterOrdinal year
  [ holiday (easter - 3) "Skärtorsdagen" Work.DEPENDS
  , holiday (easter - 2) "Långfredagen" Work.FREE
  , holiday (easter - 1) "Påskafton" Work.FREE
  , holiday easter "Påskdagen" Work.FREE
  , holiday (easter + 1) "Annandag påsk" Work.FREE
  , holiday (easter + (5 * 7 + 4)) "Kristi himmelsfärdsdag" Work.FREE
  , holiday (easter + (6 * 7 + 6)) "Pingstafton" Work.FREE
  , holiday (easter + 7 * 7) "Pingstdagen" Work.FREE ]

/-- `Calendar.add_midsummers_eve(year)`: recurring event for midsummer's eve. -/
def midsummersEve (year : Nat) : HolidaySpec :=
  { holiday (toOrdinal year 1 1) "Midsommarafton" Work.DEFACTO with
    rrule := some { freq := "YEARLY", byday := some "FR"
                    bymonthday := [19, 20, 21, 22, 23, 24, 25], bymonth := [6] } }

/-- `Calendar.add_midsummer_day(year)`: recurring event for the midsummer day. -/
def midsummerDay (year : Nat) : HolidaySpec :=
  { holiday (toOrdinal year 1 1) "Midsommardagen" Work.FREE with
    rrule := some { freq := "YEARLY", byday := some "SA"
                    bymonthday := [20, 21, 22, 23, 24, 25, 26], bymonth := [6] } }

/-- `Calendar.add_all_saints_eve(year)`: recurring event for all saint's eve. -/
def allSaintsEve (year : Nat) : HolidaySpec :=
  { holiday (toOrdinal year 1 1) "Allhelgonaafton" Work.DEPENDS with
    rrule := some { freq := "YEARLY", byday := some "FR"
                    bymonthday := [30, 31, 1, 2, 3, 4, 5], bymonth := [10, 11] } }

/-- `Calendar.add_all_saints_day(year)`: recurring event for all saint's day. -/
def allSaintsDay (year : Nat) : HolidaySpec :=
  { holiday (toOrdinal year 1 1) "Alla helgons dag" Work.FREE with
    rrule := some { freq := "YEARLY", byday := some "SA"
                    bymonthday := [31, 1, 2, 3, 4, 5, 6], bymonth := [10, 11] } }

/-- The specs of all events `generate(start_year, count)` appends, in the exact
order of the `add_component` calls of the script: three fixed January events,
then the Easter block for each requested year, then the remaining fixed and
window events. -/
def generateSpecs (start_year count : Nat) : List HolidaySpec :=
  [ fixedHoliday (toOrdinal start_year 1 1) "Nyårsdagen" Work.FREE
  , fixedHoliday (toOrdinal start_year 1 5) "Trettondagsafton" Work.DEPENDS
  , fixedHoliday (toOrdinal start_year 1 6) "Trettondedag jul" Work.FREE ]
  ++ (List.range count).flatMap (fun i => addEaster (start_year + i))
  ++ [ fixedHoliday (toOrdinal start_year 4 30) "Valborgsmässoafton" Work.DEPENDS
  , fixedHoliday (toOrdinal start_year 5 1) "Första maj" Work.FREE
  , fixedHoliday (toOrdinal start_year 6 6) "Sveriges nationaldag" Work.FREE
  , midsummersEve start_year
  , midsummerDay start_year
  , allSaintsEve start_year
  , allSaintsDay start_year
  , fixedHoliday (toOrdinal start_year 12 24) "Julafton" Work.DEFACTO
  , fixedHoliday (toOrdinal start_year 12 25) "Juldagen" Work.FREE
  , fixedHoliday (toOrdinal start_year 12 26) "Annandag jul" Work.FREE
  , fixedHoliday (toOrdinal start_year 12 31) "Nyårsafton" Work.DEFACTO ]

/-- Attach the unique id to an event spec (the `self.add('uid', uuid.uuid1())`
step of `Holiday.__init__`). -/
def realize (uid : Nat) (s : HolidaySpec) : Holiday :=
  { uid := uid, transp := s.transp, dtstart := s.dtstart, summary := s.summary
    categories := s.categories, description := s.description, rrule := s.rrule }

/-- Forget the unique id of an event. -/
def stripUid (h : Holiday) : HolidaySpec :=
  { transp := h.transp, dtstart := h.dtstart, summary := h.summary
    categories := h.categories, description := h.description, rrule := h.rrule }

/-- The calendar document: product metadata plus the ordered components. -/
structure Calendar where
  prodid : String
  version : String
  components : List Holiday
deriving DecidableEq

/-- `generate(start_year, count)`: the full calendar document, with the k-th
created event receiving unique id `uids k`. -/
def generate (start_year count : Nat) (uids : Nat → Nat) : Calendar :=
  { prodid := "-//Mozilla.org/NONSGML Mozilla Calendar V1.1//"
    version := "2.0"
    components := (generateSpecs start_year count).mapIdx fun k s => realize (uids k) s }

/-! ## Helper lemmas -/

/-- Forgetting the uid of a realized spec gives back the spec. -/
lemma stripUid_realize (u : Nat) (p : HolidaySpec) : stripUid (realize u p) = p := rfl

/-- Realizing a list of specs with any uid supply and stripping the uids is the
identity. -/
lemma map_stripUid_mapIdx (l : List HolidaySpec) (u : Nat → Nat) :
    ((l.mapIdx fun k p => realize (u k) p).map stripUid) = l := by
  induction l generalizing u with
  | nil => rfl
  | cons a t ih => rw [List.mapIdx_cons, List.map_cons, stripUid_realize, ih]

/-- The components of a generated document, uids forgotten, are exactly the
event specs in order. -/
lemma components_strip (s c : Nat) (u : Nat → Nat) :
    (generate s c u).components.map stripUid = generateSpecs s c :=
  map_stripUid_mapIdx (generateSpecs s c) u

/-- The summaries of the generated components are the summaries of the specs. -/
lemma summaries_generate (s c : Nat) (u : Nat → Nat) :
    (generate s c u).components.map (fun h => h.summary) =
      (generateSpecs s c).map (fun p => p.summary) := by
  conv_rhs => rw [← components_strip s c u]
  rw [List.map_map]
  rfl

/-- Each Easter block contributes eight events. -/
lemma length_addEaster (y : Nat) : (addEaster y).length = 8 := rfl

/-- The Easter blocks of a `count`-year run contribute `8 * count` events. -/
lemma length_flatMap_addEaster (s c : Nat) :
    ((List.range c).flatMap fun i => addEaster (s + i)).length = 8 * c := by
  induction c with
  | zero => rfl
  | succ k ih =>
      rw [List.range_succ, List.flatMap_append, List.length_append, ih]
      simp [length_addEaster]
      omega

/-- Any event of a generated document is, uid forgotten, an event spec of the
run. -/
lemma strip_mem_generateSpecs {s c : Nat} {u : Nat → Nat} {h : Holiday}
    (hm : h ∈ (generate s c u).components) : stripUid h ∈ generateSpecs s c := by
  rw [← components_strip s c u]
  exact List.mem_map_of_mem stripUid hm

/-! ## Claims -/

/-- C1, counterexample: with `start_year = 2023` and `count = 1` the generated
document has 22 events, not `12 + 8 * 1 = 20` as the claim states: the script
emits 14 recurring-rule events (ten fixed-date plus four weekday-window), not
12. -/
theorem C1_counterexample :
    ¬ ((generate 2023 1 (fun k => k)).components.length = 12 + 8 * 1) := by decide

/-- C1, amended: for every valid start year and every count, the generated
document contains exactly `14 + 8 * count` events: 14 recurring-rule events
emitted once regardless of count (ten fixed-date and four weekday-window), and
8 non-recurring Easter-relative events per requested year. -/
theorem C1_event_count (s c : Nat) (u : Nat → Nat) (h1 : 1 ≤ s) (h2 : s ≤ 9999) :
    (generate s c u).components.length = 14 + 8 * c := by
  show ((generateSpecs s c).mapIdx fun k p => realize (u k) p).length = 14 + 8 * c
  rw [List.length_mapIdx]
  unfold generateSpecs
  rw [List.length_append, List.length_append, length_flatMap_addEaster]
  simp
  omega

/-- C1, witness: the amended count theorem applied at `start_year = 2023`,
`count = 3`: 38 events. -/
theorem C1_event_count_witness :
    (1 ≤ 2023 ∧ 2023 ≤ 9999) ∧ (generate 2023 3 (fun k => k)).components.length = 14 + 8 * 3 :=
  ⟨⟨by decide, by decide⟩, C1_event_count 2023 3 (fun k => k) (by decide) (by decide)⟩

/-- C2, counterexample: `generate(2023, 0)` does not fail — the per-year loop
body simply never runs — and a complete document holding the 14 recurring
events and the product metadata is returned. -/
theorem C2_counterexample :
    (generate 2023 0 (fun k => k)).components.length = 14 ∧
    (generate 2023 0 (fun k => k)).prodid = "-//Mozilla.org/NONSGML Mozilla Calendar V1.1//" ∧
    (generate 2023 0 (fun k => k)).version = "2.0" :=
  ⟨rfl, rfl, rfl⟩

/-- C2, amended: for every valid start year, calling the generation function
with `count = 0` succeeds and returns a full document containing exactly the 14
recurring-rule events in order and no Easter-relative events. -/
theorem C2_zero_count (s : Nat) (u : Nat → Nat) (h1 : 1 ≤ s) (h2 : s ≤ 9999) :
    (generate s 0 u).components.length = 14 ∧
    (generate s 0 u).components.map (fun h => h.summary) =
      ["Nyårsdagen", "Trettondagsafton", "Trettondedag jul", "Valborgsmässoafton",
       "Första maj", "Sveriges nationaldag", "Midsommarafton", "Midsommardagen",
       "Allhelgonaafton", "Alla helgons dag", "Julafton", "Juldagen", "Annandag jul",
       "Nyårsafton"] ∧
    (generate s 0 u).version = "2.0" := by
  refine ⟨?_, ?_, rfl⟩
  · show ((generateSpecs s 0).mapIdx fun k p => realize (u k) p).length = 14
    rw [List.length_mapIdx]
    rfl
  · rw [summaries_generate]
    rfl

/-- C2, witness: the amended zero-count theorem applied at `start_year = 2023`. -/
theorem C2_zero_count_witness :
    (1 ≤ 2023 ∧ 2023 ≤ 9999) ∧
    ((generate 2023 0 (fun k => k)).components.length = 14 ∧
     (generate 2023 0 (fun k => k)).components.map (fun h => h.summary) =
       ["Nyårsdagen", "Trettondagsafton", "Trettondedag jul", "Valborgsmässoafton",
        "Första maj", "Sveriges nationaldag", "Midsommarafton", "Midsommardagen",
        "Allhelgonaafton", "Alla helgons dag", "Julafton", "Juldagen", "Annandag jul",
        "Nyårsafton"] ∧
     (generate 2023 0 (fun k => k)).version = "2.0") :=
  ⟨⟨by decide, by decide⟩, C2_zero_count 2023 (fun k => k) (by decide) (by decide)⟩

/-- The summaries of the eight Easter-relative events, in append order. -/
def easterNames : List String :=
  ["Skärtorsdagen", "Långfredagen", "Påskafton", "Påskdagen", "Annandag påsk",
   "Kristi himmelsfärdsdag", "Pingstafton", "Pingstdagen"]

/-- C3: for every year, the eight Easter-relative events are non-recurring
events anchored at fixed offsets from Easter Sunday (−3, −2, −1, 0, +1 days,
+5 weeks 4 days, +6 weeks 6 days, +7 weeks), with work status Depends for
Maundy Thursday (category tag and note attached) and Free for the rest; they
are the events a one-year run for 2024 appends after the January fixed events,
and for 2024 Easter Sunday falls on 2024-03-31, Maundy Thursday on 2024-03-28,
Ascension Day on 2024-05-09 and Whit Sunday on 2024-05-19. -/
theorem C3_easter_offsets (y : Nat) (u : Nat → Nat) :
    (addEaster y).map (fun p => p.dtstart) =
      [easterOrdinal y - 3, easterOrdinal y - 2, easterOrdinal y - 1, easterOrdinal y,
       easterOrdinal y + 1, easterOrdinal y + (5 * 7 + 4), easterOrdinal y + (6 * 7 + 6),
       easterOrdinal y + 7 * 7] ∧
    (addEaster y).map (fun p => p.rrule) = List.replicate 8 none ∧
    (addEaster y).map (fun p => p.summary) = easterNames ∧
    (addEaster y).map (fun p => p.categories) =
      [some dependsCategory, none, none, none, none, none, none, none] ∧
    (addEaster y).map (fun p => p.description) =
      [some dependsDescription, none, none, none, none, none, none, none] ∧
    (((generate 2024 1 u).components.map stripUid).drop 3).take 8 = addEaster 2024 ∧
    easterOrdinal 2024 = toOrdinal 2024 3 31 ∧
    easterOrdinal 2024 - 3 = toOrdinal 2024 3 28 ∧
    easterOrdinal 2024 + (5 * 7 + 4) = toOrdinal 2024 5 9 ∧
    easterOrdinal 2024 + 7 * 7 = toOrdinal 2024 5 19 := by
  refine ⟨rfl, rfl, rfl, rfl, rfl, ?_, by decide, by decide, by decide, by decide⟩
  rw [components_strip]
  rfl

/-- C4: the four weekday-window events carry a yearly recurrence rule with
exactly the listed parameters — Midsummer Eve Friday 19..25 of June DeFacto,
Midsummer Day Saturday 20..26 of June Free, All Saints' Eve Friday
30,31,1..5 of October/November Depends, All Saints' Day Saturday 31,1..6 of
October/November Free — the rule being encoded in the event (the anchor date a
January-1 placeholder), not resolved to a single date; the four appear as
events of the generated document. -/
theorem C4_window_rules (y : Nat) (u : Nat → Nat) :
    midsummersEve y =
      { transp := "TRANSPARENT", dtstart := toOrdinal y 1 1, summary := "Midsommarafton",
        categories := none, description := some defactoDescription,
        rrule := some { freq := "YEARLY", byday := some "FR",
                        bymonthday := [19, 20, 21, 22, 23, 24, 25], bymonth := [6] } } ∧
    midsummerDay y =
      { transp := "TRANSPARENT", dtstart := toOrdinal y 1 1, summary := "Midsommardagen",
        categories := none, description := none,
        rrule := some { freq := "YEARLY", byday := some "SA",
                        bymonthday := [20, 21, 22, 23, 24, 25, 26], bymonth := [6] } } ∧
    allSaintsEve y =
      { transp := "TRANSPARENT", dtstart := toOrdinal y 1 1, summary := "Allhelgonaafton",
        categories := some dependsCategory, description := some dependsDescription,
        rrule := some { freq := "YEARLY", byday := some "FR",
                        bymonthday := [30, 31, 1, 2, 3, 4, 5], bymonth := [10, 11] } } ∧
    allSaintsDay y =
      { transp := "TRANSPARENT", dtstart := toOrdinal y 1 1, summary := "Alla helgons dag",
        categories := none, description := none,
        rrule := some { freq := "YEARLY", byday := some "SA",
                        bymonthday := [31, 1, 2, 3, 4, 5, 6], bymonth := [10, 11] } } ∧
    (((generate 2023 1 u).components.map stripUid).drop 14).take 4 =
      [midsummersEve 2023, midsummerDay 2023, allSaintsEve 2023, allSaintsDay 2023] := by
  refine ⟨rfl, rfl, rfl, rfl, ?_⟩
  rw [components_strip]
  rfl

/-- C5, counterexample: the generated events do not follow the
Easter-first §4.1 grouping: for `generate(2023, 1)` the first eight events are
not the Easter-relative ones — the document starts with the fixed event
`Nyårsdagen`, which is not Easter-relative. -/
theorem C5_counterexample :
    ((generate 2023 1 (fun k => k)).components.map (fun h => h.summary)).take 8 ≠
      easterNames ∧
    ((generate 2023 1 (fun k => k)).components.map (fun h => h.summary)).head? =
      some "Nyårsdagen" ∧
    "Nyårsdagen" ∉ easterNames := by
  exact ⟨by decide, rfl, by decide⟩

/-- C5, amended: for every valid start year and count the events appear in the
fixed, stable order of the script's `add_component` calls — New Year's Day,
Epiphany Eve, Epiphany, then for each requested year the eight Easter-relative
events in offset order, then Walpurgis Eve, May Day, National Day, the four
weekday-window events, Christmas Eve, Christmas Day, Boxing Day, New Year's
Eve — and two runs with the same arguments produce events in the same order. -/
theorem C5_order (s c : Nat) (u v : Nat → Nat) (h1 : 1 ≤ s) (h2 : s ≤ 9999) :
    (generate s c u).components.map (fun h => h.summary) =
      ["Nyårsdagen", "Trettondagsafton", "Trettondedag jul"]
        ++ (List.range c).flatMap (fun _ => easterNames)
        ++ ["Valborgsmässoafton", "Första maj", "Sveriges nationaldag", "Midsommarafton",
            "Midsommardagen", "Allhelgonaafton", "Alla helgons dag", "Julafton",
            "Juldagen", "Annandag jul", "Nyårsafton"] ∧
    (generate s c u).components.map (fun h => h.summary) =
      (generate s c v).components.map (fun h => h.summary) := by
  have key : ∀ w : Nat → Nat,
      (generate s c w).components.map (fun h => h.summary) =
        ["Nyårsdagen", "Trettondagsafton", "Trettondedag jul"]
          ++ (List.range c).flatMap (fun _ => easterNames)
          ++ ["Valborgsmässoafton", "Första maj", "Sveriges nationaldag", "Midsommarafton",
              "Midsommardagen", "Allhelgonaafton", "Alla helgons dag", "Julafton",
              "Juldagen", "Annandag jul", "Nyårsafton"] := by
    intro w
    rw [summaries_generate]
    unfold generateSpecs
    rw [List.map_append, List.map_append, List.map_flatMap]
    have he : (fun i => (addEaster (s + i)).map (fun p => p.summary)) =
        (fun _ : Nat => easterNames) := funext fun i => rfl
    rw [he]
    rfl
  exact ⟨key u, (key u).trans (key v).symm⟩

/-- C5, witness: the amended order theorem applied at `start_year = 2023`,
`count = 2` and two uid supplies. -/
theorem C5_order_witness :
    (1 ≤ 2023 ∧ 2023 ≤ 9999) ∧
    ((generate 2023 2 (fun k => k)).components.map (fun h => h.summary) =
      ["Nyårsdagen", "Trettondagsafton", "Trettondedag jul"]
        ++ (List.range 2).flatMap (fun _ => easterNames)
        ++ ["Valborgsmässoafton", "Första maj", "Sveriges nationaldag", "Midsommarafton",
            "Midsommardagen", "Allhelgonaafton", "Alla helgons dag", "Julafton",
            "Juldagen", "Annandag jul", "Nyårsafton"] ∧
     (generate 2023 2 (fun k => k)).components.map (fun h => h.summary) =
       (generate 2023 2 (fun k => k + 5)).components.map (fun h => h.summary)) :=
  ⟨⟨by decide, by decide⟩,
    C5_order 2023 2 (fun k => k) (fun k => k + 5) (by decide) (by decide)⟩

/-- C6: two calls of the generation function with identical arguments produce
documents whose event sequences agree on every field except the unique
identifier — same length, and equal after forgetting uids (hence equal anchor
dates, summaries, recurrence rules, descriptions, categories and transparency)
— and equal document metadata; the uid supplies are free to differ. -/
theorem C6_uid_independence (s c : Nat) (u v : Nat → Nat) (h1 : 1 ≤ s) (h2 : s ≤ 9999) :
    (generate s c u).components.map stripUid = (generate s c v).components.map stripUid ∧
    (generate s c u).components.length = (generate s c v).components.length ∧
    (generate s c u).prodid = (generate s c v).prodid ∧
    (generate s c u).version = (generate s c v).version := by
  have hu := components_strip s c u
  have hv := components_strip s c v
  refine ⟨hu.trans hv.symm, ?_, rfl, rfl⟩
  have hl := congrArg List.length (hu.trans hv.symm)
  simpa using hl

/-- C6, witness: the uid-independence theorem applied at `start_year = 2024`,
`count = 1` and two different uid supplies. -/
theorem C6_uid_independence_witness :
    (1 ≤ 2024 ∧ 2024 ≤ 9999) ∧
    ((generate 2024 1 (fun _ => 0)).components.map stripUid =
       (generate 2024 1 (fun k => k + 1)).components.map stripUid ∧
     (generate 2024 1 (fun _ => 0)).components.length =
       (generate 2024 1 (fun k => k + 1)).components.length ∧
     (generate 2024 1 (fun _ => 0)).prodid = (generate 2024 1 (fun k => k + 1)).prodid ∧
     (generate 2024 1 (fun _ => 0)).version = (generate 2024 1 (fun k => k + 1)).version) :=
  ⟨⟨by decide, by decide⟩,
    C6_uid_independence 2024 1 (fun _ => 0) (fun k => k + 1) (by decide) (by decide)⟩

/-- Every event spec of a run is built by one of the constructors of the
script: a plain `Holiday`, a `FixedHoliday`, or one of the four explicit
weekday-window events. -/
lemma spec_cases {p : HolidaySpec} {s c : Nat} (hp : p ∈ generateSpecs s c) :
    (∃ d n w, p = holiday d n w) ∨ (∃ d n w, p = fixedHoliday d n w) ∨
    p = midsummersEve s ∨ p = midsummerDay s ∨ p = allSaintsEve s ∨ p = allSaintsDay s := by
  unfold generateSpecs at hp
  rcases List.mem_append.1 hp with hp' | hB
  · rcases List.mem_append.1 hp' with hA | hE
    · simp only [List.mem_cons, List.not_mem_nil, or_false] at hA
      rcases hA with rfl | rfl | rfl
      all_goals exact Or.inr (Or.inl ⟨_, _, _, rfl⟩)
    · rcases List.mem_flatMap.1 hE with ⟨i, _, hp8⟩
      simp only [addEaster, List.mem_cons, List.not_mem_nil, or_false] at hp8
      rcases hp8 with rfl | rfl | rfl | rfl | rfl | rfl | rfl | rfl
      all_goals exact Or.inl ⟨_, _, _, rfl⟩
  · simp only [List.mem_cons, List.not_mem_nil, or_false] at hB
    rcases hB with rfl | rfl | rfl | rfl | rfl | rfl | rfl | rfl | rfl | rfl | rfl
    · exact Or.inr (Or.inl ⟨_, _, _, rfl⟩)
    · exact Or.inr (Or.inl ⟨_, _, _, rfl⟩)
    · exact Or.inr (Or.inl ⟨_, _, _, rfl⟩)
    · exact Or.inr (Or.inr (Or.inl rfl))
    · exact Or.inr (Or.inr (Or.inr (Or.inl rfl)))
    · exact Or.inr (Or.inr (Or.inr (Or.inr (Or.inl rfl))))
    · exact Or.inr (Or.inr (Or.inr (Or.inr (Or.inr rfl))))
    all_goals exact Or.inr (Or.inl ⟨_, _, _, rfl⟩)

/-- Whether a list of month-day numbers is one strictly consecutive run
(each entry one more than the one before). -/
def consecRun : List Nat → Bool
  | [] => true
  | [_] => true
  | a :: b :: t => b == a + 1 && consecRun (b :: t)

/-- Whether a list of month-day numbers advances one calendar day at a time,
allowing a wrap from a month's last day to the 1st of the following month. -/
def consecRunWithWrap : List Nat → Bool
  | [] => true
  | [_] => true
  | a :: b :: t => (b == a + 1 || b == 1) && consecRunWithWrap (b :: t)

/-- A candidate list spans a month boundary when it is not one strictly
consecutive run of day numbers. -/
def spansMonthBoundary (l : List Nat) : Prop := consecRun l = false

instance (l : List Nat) : Decidable (spansMonthBoundary l) :=
  inferInstanceAs (Decidable (consecRun l = false))

/-- Property of a weekday-window recurrence rule, at the level of a spec:
whenever the rule carries a target weekday, the candidate set holds exactly 7
consecutive day values (allowing one wrap into the next month) and one or two
target months — two exactly when the window spans a month boundary. -/
lemma window_spec {p : HolidaySpec} {s c : Nat} (hp : p ∈ generateSpecs s c) :
    ∀ r, p.rrule = some r → r.byday.isSome →
      r.bymonthday.length = 7 ∧ consecRunWithWrap r.bymonthday = true ∧
      (r.bymonth.length = 1 ∨ r.bymonth.length = 2) ∧
      (spansMonthBoundary r.bymonthday ↔ r.bymonth.length = 2) := by
  intro r hr hb
  rcases spec_cases hp with ⟨d, n, w, rfl⟩ | ⟨d, n, w, rfl⟩ | rfl | rfl | rfl | rfl
  · exact absurd hr (by simp [holiday])
  · have e := Option.some.inj hr
    subst e
    simp [yearlyRecur] at hb
  · have e := Option.some.inj hr
    subst e
    exact ⟨rfl, by decide, Or.inl rfl, by decide⟩
  · have e := Option.some.inj hr
    subst e
    exact ⟨rfl, by decide, Or.inl rfl, by decide⟩
  · have e := Option.some.inj hr
    subst e
    exact ⟨rfl, by decide, Or.inr rfl, by decide⟩
  · have e := Option.some.inj hr
    subst e
    exact ⟨rfl, by decide, Or.inr rfl, by decide⟩

/-- C7, counterexample: the Midsummer Eve rule of the generated document pairs
a weekday (Friday) with the seven candidates 19..25 in the single month June —
a window that does not span a month boundary — so not every weekday-window
rule has candidates spanning a month boundary. -/
theorem C7_counterexample :
    (midsummersEve 2023).rrule =
      some { freq := "YEARLY", byday := some "FR",
             bymonthday := [19, 20, 21, 22, 23, 24, 25], bymonth := [6] } ∧
    midsummersEve 2023 ∈ (generate 2023 1 (fun k => k)).components.map stripUid ∧
    ¬ spansMonthBoundary [19, 20, 21, 22, 23, 24, 25] ∧
    ([6] : List Nat).length ≠ 2 := by
  refine ⟨rfl, ?_, by decide, by decide⟩
  rw [components_strip]
  decide

/-- C7, amended: every recurrence rule of the weekday-window kind in a
generated document pairs exactly one target weekday with a finite ordered set
of exactly 7 consecutive month-day candidate values — wrapping across a month
boundary where the window does — together with one or two target months, two
exactly when the window spans a month boundary. -/
theorem C7_window_invariant (s c : Nat) (u : Nat → Nat) (h1 : 1 ≤ s) (h2 : s ≤ 9999) :
    ∀ h ∈ (generate s c u).components, ∀ r, h.rrule = some r → r.byday.isSome →
      r.bymonthday.length = 7 ∧ consecRunWithWrap r.bymonthday = true ∧
      (r.bymonth.length = 1 ∨ r.bymonth.length = 2) ∧
      (spansMonthBoundary r.bymonthday ↔ r.bymonth.length = 2) := by
  intro h hm r hr hb
  exact window_spec (strip_mem_generateSpecs hm) r hr hb

/-- C7, witness: the amended window invariant applied to the All Saints' Eve
event of `generate(2023, 1)`. -/
theorem C7_window_invariant_witness :
    (1 ≤ 2023 ∧ 2023 ≤ 9999) ∧
    (realize 16 (allSaintsEve 2023) ∈ (generate 2023 1 (fun k => k)).components ∧
     (realize 16 (allSaintsEve 2023)).rrule =
       some { freq := "YEARLY", byday := some "FR",
              bymonthday := [30, 31, 1, 2, 3, 4, 5], bymonth := [10, 11] } ∧
     Option.isSome (some "FR") = true) ∧
    ([30, 31, 1, 2, 3, 4, 5] : List Nat).length = 7 ∧
    consecRunWithWrap [30, 31, 1, 2, 3, 4, 5] = true ∧
    (([10, 11] : List Nat).length = 1 ∨ ([10, 11] : List Nat).length = 2) ∧
    (spansMonthBoundary [30, 31, 1, 2, 3, 4, 5] ↔ ([10, 11] : List Nat).length = 2) :=
  ⟨⟨by decide, by decide⟩, ⟨by decide, rfl, rfl⟩,
    C7_window_invariant 2023 1 (fun k => k) (by decide) (by decide)
      (realize 16 (allSaintsEve 2023)) (by decide)
      { freq := "YEARLY", byday := some "FR",
        bymonthday := [30, 31, 1, 2, 3, 4, 5], bymonth := [10, 11] } rfl rfl⟩

/-- Annotation shape of every event spec of a run: both category tag and note
(Depends), note only (DeFacto), or neither (Free). -/
lemma annotations_spec {p : HolidaySpec} {s c : Nat} (hp : p ∈ generateSpecs s c) :
    (p.categories, p.description) = (some dependsCategory, some dependsDescription) ∨
    (p.categories, p.description) = (none, some defactoDescription) ∨
    (p.categories, p.description) = (none, none) := by
  rcases spec_cases hp with ⟨d, n, w, rfl⟩ | ⟨d, n, w, rfl⟩ | rfl | rfl | rfl | rfl
  · cases w <;> simp [holiday]
  · cases w <;> simp [fixedHoliday, holiday]
  all_goals simp [midsummersEve, midsummerDay, allSaintsEve, allSaintsDay, holiday]

/-- C8: the work status alone determines the attached annotations — the
constructor gives a Depends event both the category tag and the note, a
DeFacto event the note only, and a Free event neither, leaving every other
field as for a Free event — and every event of a generated document carries
one of exactly these three annotation shapes. -/
theorem C8_work_annotations (s c : Nat) (u : Nat → Nat) (h1 : 1 ≤ s) (h2 : s ≤ 9999) :
    (∀ (d : Int) (n : String) (w : Work),
      holiday d n w =
        { holiday d n Work.FREE with
          categories := if w = Work.DEPENDS then some dependsCategory else none,
          description :=
            if w = Work.DEPENDS then some dependsDescription
            else if w = Work.DEFACTO then some defactoDescription
            else none }) ∧
    ∀ h ∈ (generate s c u).components,
      (h.categories, h.description) = (some dependsCategory, some dependsDescription) ∨
      (h.categories, h.description) = (none, some defactoDescription) ∨
      (h.categories, h.description) = (none, none) := by
  constructor
  · intro d n w
    cases w <;> rfl
  · intro h hm
    exact annotations_spec (strip_mem_generateSpecs hm)

/-- C8, witness: the annotation theorem applied at `start_year = 2023`,
`count = 1` and its Epiphany Eve (Depends) event. -/
theorem C8_work_annotations_witness :
    (1 ≤ 2023 ∧ 2023 ≤ 9999) ∧
    (holiday 0 "x" Work.DEFACTO =
      { holiday 0 "x" Work.FREE with
        categories := if Work.DEFACTO = Work.DEPENDS then some dependsCategory else none,
        description :=
          if Work.DEFACTO = Work.DEPENDS then some dependsDescription
          else if Work.DEFACTO = Work.DEFACTO then some defactoDescription
          else none } ∧
     (((realize 1 (fixedHoliday (toOrdinal 2023 1 5) "Trettondagsafton" Work.DEPENDS)).categories,
       (realize 1 (fixedHoliday (toOrdinal 2023 1 5) "Trettondagsafton" Work.DEPENDS)).description) =
        (some dependsCategory, some dependsDescription) ∨
      ((realize 1 (fixedHoliday (toOrdinal 2023 1 5) "Trettondagsafton" Work.DEPENDS)).categories,
       (realize 1 (fixedHoliday (toOrdinal 2023 1 5) "Trettondagsafton" Work.DEPENDS)).description) =
        (none, some defactoDescription) ∨
      ((realize 1 (fixedHoliday (toOrdinal 2023 1 5) "Trettondagsafton" Work.DEPENDS)).categories,
       (realize 1 (fixedHoliday (toOrdinal 2023 1 5) "Trettondagsafton" Work.DEPENDS)).description) =
        (none, none))) :=
  ⟨⟨by decide, by decide⟩,
    ⟨(C8_work_annotations 2023 1 (fun k => k) (by decide) (by decide)).1 0 "x" Work.DEFACTO,
     (C8_work_annotations 2023 1 (fun k => k) (by decide) (by decide)).2
       (realize 1 (fixedHoliday (toOrdinal 2023 1 5) "Trettondagsafton" Work.DEPENDS))
       (by decide)⟩⟩

/-- Easter correctness property for one year: the computed Easter Sunday is a
Sunday and lies between March 22 and April 25 inclusive. -/
def easterOk (y : Nat) : Prop :=
  weekday (easterOrdinal y) = 6 ∧
  toOrdinal y 3 22 ≤ easterOrdinal y ∧ easterOrdinal y ≤ toOrdinal y 4 25 ∧
  ((easterMD y).1 = 3 ∧ 22 ≤ (easterMD y).2 ∧ (easterMD y).2 ≤ 31 ∨
   (easterMD y).1 = 4 ∧ 1 ≤ (easterMD y).2 ∧ (easterMD y).2 ≤ 25)

instance (y : Nat) : Decidable (easterOk y) := by
  unfold easterOk
  infer_instance

/-- A century-sized slice of the Easter property, to keep each decision
shallow. -/
def easterOkChunk (a : Nat) : Prop := ∀ z < 100, easterOk (a + z)

instance (a : Nat) : Decidable (easterOkChunk a) := by
  unfold easterOkChunk
  infer_instance

/-- Shift a chunk fact to an absolute year. -/
lemma easterOkChunk_elim {a y : Nat} (H : easterOkChunk a) (ha : a ≤ y)
    (hb : y < a + 100) : easterOk y := by
  have hz := H (y - a) (by omega)
  rwa [Nat.add_sub_cancel' ha] at hz

set_option maxRecDepth 4000 in
set_option maxHeartbeats 4000000 in
/-- The Easter property holds on every year of the validity range 1583..4099
of the dateutil Gregorian Easter method, checked by evaluation in
century-sized slices. -/
lemma easterOk_chunks :
    easterOkChunk 1583 ∧
    easterOkChunk 1683 ∧
    easterOkChunk 1783 ∧
    easterOkChunk 1883 ∧
    easterOkChunk 1983 ∧
    easterOkChunk 2083 ∧
    easterOkChunk 2183 ∧
    easterOkChunk 2283 ∧
    easterOkChunk 2383 ∧
    easterOkChunk 2483 ∧
    easterOkChunk 2583 ∧
    easterOkChunk 2683 ∧
    easterOkChunk 2783 ∧
    easterOkChunk 2883 ∧
    easterOkChunk 2983 ∧
    easterOkChunk 3083 ∧
    easterOkChunk 3183 ∧
    easterOkChunk 3283 ∧
    easterOkChunk 3383 ∧
    easterOkChunk 3483 ∧
    easterOkChunk 3583 ∧
    easterOkChunk 3683 ∧
    easterOkChunk 3783 ∧
    easterOkChunk 3883 ∧
    easterOkChunk 3983 ∧
    (∀ z < 17, easterOk (4083 + z)) := by
  decide

/-- C9: for every year in the validity range 1583..4099 of the underlying
Gregorian Easter computation, Easter Sunday falls on a Sunday (weekday 6) and
lies between March 22 and April 25 inclusive, both as ordinals and as
month/day pairs. -/
theorem C9_easter_sunday (y : Nat) (h1 : 1583 ≤ y) (h2 : y ≤ 4099) :
    weekday (easterOrdinal y) = 6 ∧
    toOrdinal y 3 22 ≤ easterOrdinal y ∧ easterOrdinal y ≤ toOrdinal y 4 25 ∧
    ((easterMD y).1 = 3 ∧ 22 ≤ (easterMD y).2 ∧ (easterMD y).2 ≤ 31 ∨
     (easterMD y).1 = 4 ∧ 1 ≤ (easterMD y).2 ∧ (easterMD y).2 ≤ 25) := by
  show easterOk y
  obtain ⟨H0, H1, H2, H3, H4, H5, H6, H7, H8, H9, H10, H11, H12, H13, H14, H15, H16, H17, H18, H19, H20, H21, H22, H23, H24, HL⟩ := easterOk_chunks
  by_cases b0 : y < 1683
  · exact easterOkChunk_elim H0 h1 b0
  by_cases b1 : y < 1783
  · exact easterOkChunk_elim H1 (by omega) b1
  by_cases b2 : y < 1883
  · exact easterOkChunk_elim H2 (by omega) b2
  by_cases b3 : y < 1983
  · exact easterOkChunk_elim H3 (by omega) b3
  by_cases b4 : y < 2083
  · exact easterOkChunk_elim H4 (by omega) b4
  by_cases b5 : y < 2183
  · exact easterOkChunk_elim H5 (by omega) b5
  by_cases b6 : y < 2283
  · exact easterOkChunk_elim H6 (by omega) b6
  by_cases b7 : y < 2383
  · exact easterOkChunk_elim H7 (by omega) b7
  by_cases b8 : y < 2483
  · exact easterOkChunk_elim H8 (by omega) b8
  by_cases b9 : y < 2583
  · exact easterOkChunk_elim H9 (by omega) b9
  by_cases b10 : y < 2683
  · exact easterOkChunk_elim H10 (by omega) b10
  by_cases b11 : y < 2783
  · exact easterOkChunk_elim H11 (by omega) b11
  by_cases b12 : y < 2883
  · exact easterOkChunk_elim H12 (by omega) b12
  by_cases b13 : y < 2983
  · exact easterOkChunk_elim H13 (by omega) b13
  by_cases b14 : y < 3083
  · exact easterOkChunk_elim H14 (by omega) b14
  by_cases b15 : y < 3183
  · exact easterOkChunk_elim H15 (by omega) b15
  by_cases b16 : y < 3283
  · exact easterOkChunk_elim H16 (by omega) b16
  by_cases b17 : y < 3383
  · exact easterOkChunk_elim H17 (by omega) b17
  by_cases b18 : y < 3483
  · exact easterOkChunk_elim H18 (by omega) b18
  by_cases b19 : y < 3583
  · exact easterOkChunk_elim H19 (by omega) b19
  by_cases b20 : y < 3683
  · exact easterOkChunk_elim H20 (by omega) b20
  by_cases b21 : y < 3783
  · exact easterOkChunk_elim H21 (by omega) b21
  by_cases b22 : y < 3883
  · exact easterOkChunk_elim H22 (by omega) b22
  by_cases b23 : y < 3983
  · exact easterOkChunk_elim H23 (by omega) b23
  by_cases b24 : y < 4083
  · exact easterOkChunk_elim H24 (by omega) b24
  have hz := HL (y - 4083) (by omega)
  rwa [Nat.add_sub_cancel' (show 4083 ≤ y by omega)] at hz

/-- C9, witness: the Easter property applied at year 2024
(Easter 2024-03-31, a Sunday). -/
theorem C9_easter_sunday_witness :
    (1583 ≤ 2024 ∧ 2024 ≤ 4099) ∧
    (weekday (easterOrdinal 2024) = 6 ∧
     toOrdinal 2024 3 22 ≤ easterOrdinal 2024 ∧ easterOrdinal 2024 ≤ toOrdinal 2024 4 25 ∧
     ((easterMD 2024).1 = 3 ∧ 22 ≤ (easterMD 2024).2 ∧ (easterMD 2024).2 ≤ 31 ∨
      (easterMD 2024).1 = 4 ∧ 1 ≤ (easterMD 2024).2 ∧ (easterMD 2024).2 ≤ 25)) :=
  ⟨⟨by decide, by decide⟩, C9_easter_sunday 2024 (by decide) (by decide)⟩

/-- Filtering the realized events for the fixed yearly rule and reading off
date, summary and annotations is the same as doing so on the specs. -/
lemma filter_fixed_mapIdx (l : List HolidaySpec) (u : Nat → Nat) :
    (((l.mapIdx fun k p => realize (u k) p).filter
        (fun h => h.rrule = some yearlyRecur)).map
        (fun h => (h.dtstart, h.summary, h.categories, h.description))) =
      ((l.filter (fun p => p.rrule = some yearlyRecur)).map
        (fun p => (p.dtstart, p.summary, p.categories, p.description))) := by
  induction l generalizing u with
  | nil => rfl
  | cons a t ih =>
      rw [List.mapIdx_cons, List.filter_cons, List.filter_cons]
      by_cases hp : a.rrule = some yearlyRecur
      · rw [if_pos (show decide ((realize (u 0) a).rrule = some yearlyRecur) = true from
            decide_eq_true hp),
          if_pos (decide_eq_true hp), List.map_cons, List.map_cons, ih]
        rfl
      · rw [if_neg (show ¬ decide ((realize (u 0) a).rrule = some yearlyRecur) = true from
            fun hcon => hp (of_decide_eq_true hcon)),
          if_neg (show ¬ decide (a.rrule = some yearlyRecur) = true from
            fun hcon => hp (of_decide_eq_true hcon)), ih]

/-- C10: in every generated document the events carrying the fixed yearly
recurrence rule are exactly the ten fixed-date holidays, anchored at their
month/day in the start year, with work statuses visible through their
annotations: Epiphany Eve and Walpurgis Eve Depends (category tag and note),
Christmas Eve and New Year's Eve DeFacto (note only), and the remaining six
Free (no annotations). -/
theorem C10_fixed_statuses (s c : Nat) (u : Nat → Nat) (h1 : 1 ≤ s) (h2 : s ≤ 9999) :
    (((generate s c u).components.filter (fun h => h.rrule = some yearlyRecur)).map
        (fun h => (h.dtstart, h.summary, h.categories, h.description))) =
      [(toOrdinal s 1 1, "Nyårsdagen", (none : Option String), (none : Option String)),
       (toOrdinal s 1 5, "Trettondagsafton", some dependsCategory, some dependsDescription),
       (toOrdinal s 1 6, "Trettondedag jul", none, none),
       (toOrdinal s 4 30, "Valborgsmässoafton", some dependsCategory, some dependsDescription),
       (toOrdinal s 5 1, "Första maj", none, none),
       (toOrdinal s 6 6, "Sveriges nationaldag", none, none),
       (toOrdinal s 12 24, "Julafton", none, some defactoDescription),
       (toOrdinal s 12 25, "Juldagen", none, none),
       (toOrdinal s 12 26, "Annandag jul", none, none),
       (toOrdinal s 12 31, "Nyårsafton", none, some defactoDescription)] := by
  show (((generateSpecs s c).mapIdx fun k p => realize (u k) p).filter _).map _ = _
  rw [filter_fixed_mapIdx]
  unfold generateSpecs
  rw [List.filter_append, List.filter_append, List.filter_flatMap]
  have he : (fun i => (addEaster (s + i)).filter (fun p => p.rrule = some yearlyRecur)) =
      (fun _ : Nat => ([] : List HolidaySpec)) := funext fun i => rfl
  rw [he]
  have h0 : ((List.range c).flatMap fun _ => ([] : List HolidaySpec)) = [] := by
    simp
  rw [h0]
  rfl

/-- C10, witness: the fixed-holiday theorem applied at `start_year = 2023`,
`count = 1`. -/
theorem C10_fixed_statuses_witness :
    (1 ≤ 2023 ∧ 2023 ≤ 9999) ∧
    (((generate 2023 1 (fun k => k)).components.filter
        (fun h => h.rrule = some yearlyRecur)).map
        (fun h => (h.dtstart, h.summary, h.categories, h.description))) =
      [(toOrdinal 2023 1 1, "Nyårsdagen", (none : Option String), (none : Option String)),
       (toOrdinal 2023 1 5, "Trettondagsafton", some dependsCategory, some dependsDescription),
       (toOrdinal 2023 1 6, "Trettondedag jul", none, none),
       (toOrdinal 2023 4 30, "Valborgsmässoafton", some dependsCategory, some dependsDescription),
       (toOrdinal 2023 5 1, "Första maj", none, none),
       (toOrdinal 2023 6 6, "Sveriges nationaldag", none, none),
       (toOrdinal 2023 12 24, "Julafton", none, some defactoDescription),
       (toOrdinal 2023 12 25, "Juldagen", none, none),
       (toOrdinal 2023 12 26, "Annandag jul", none, none),
       (toOrdinal 2023 12 31, "Nyårsafton", none, some defactoDescription)] :=
  ⟨⟨by decide, by decide⟩, C10_fixed_statuses 2023 1 (fun k => k) (by decide) (by decide)⟩

end SwedishHolidays
